import Mathlib

/-!
Verification of the copernicus solar-system N-body simulator.

The repository's visible source (`src/main.rs`) contains the CLI flags, the
gravity-constant unit scaling and the scene setup (sun + nine planets with JPL
data).  The simulation core itself (`plugins/nbody.rs`: the body components,
the force accumulator and the symplectic-Euler integrator) is not among the
provided sources, so that core is modelled from the specification
(`spec.md` §4.1–§4.5, §7), with floating-point scalars idealised as exact
real numbers.
-/

namespace Copernicus

/-- A 3-D vector with real components, the idealisation of the engine's
`Vec3` of `f32` components. -/
structure Vec3 where
  x : ℝ
  y : ℝ
  z : ℝ

instance : Zero Vec3 := ⟨⟨0, 0, 0⟩⟩

instance : Add Vec3 := ⟨fun a b => ⟨a.x + b.x, a.y + b.y, a.z + b.z⟩⟩

instance : Sub Vec3 := ⟨fun a b => ⟨a.x - b.x, a.y - b.y, a.z - b.z⟩⟩

instance : Neg Vec3 := ⟨fun a => ⟨-a.x, -a.y, -a.z⟩⟩

instance : SMul ℝ Vec3 := ⟨fun c a => ⟨c * a.x, c * a.y, c * a.z⟩⟩

instance : Inhabited Vec3 := ⟨0⟩

theorem Vec3.ext' {a b : Vec3} (hx : a.x = b.x) (hy : a.y = b.y)
    (hz : a.z = b.z) : a = b := by
  cases a; cases b; simp only at hx hy hz; rw [hx, hy, hz]

@[simp] theorem Vec3.zero_x : (0 : Vec3).x = 0 := rfl

@[simp] theorem Vec3.zero_y : (0 : Vec3).y = 0 := rfl

@[simp] theorem Vec3.zero_z : (0 : Vec3).z = 0 := rfl

@[simp] theorem Vec3.add_x (a b : Vec3) : (a + b).x = a.x + b.x := rfl

@[simp] theorem Vec3.add_y (a b : Vec3) : (a + b).y = a.y + b.y := rfl

@[simp] theorem Vec3.add_z (a b : Vec3) : (a + b).z = a.z + b.z := rfl

@[simp] theorem Vec3.sub_x (a b : Vec3) : (a - b).x = a.x - b.x := rfl

@[simp] theorem Vec3.sub_y (a b : Vec3) : (a - b).y = a.y - b.y := rfl

@[simp] theorem Vec3.sub_z (a b : Vec3) : (a - b).z = a.z - b.z := rfl

@[simp] theorem Vec3.neg_x (a : Vec3) : (-a).x = -a.x := rfl

@[simp] theorem Vec3.neg_y (a : Vec3) : (-a).y = -a.y := rfl

@[simp] theorem Vec3.neg_z (a : Vec3) : (-a).z = -a.z := rfl

@[simp] theorem Vec3.smul_x (c : ℝ) (a : Vec3) : (c • a).x = c * a.x := rfl

@[simp] theorem Vec3.smul_y (c : ℝ) (a : Vec3) : (c • a).y = c * a.y := rfl

@[simp] theorem Vec3.smul_z (c : ℝ) (a : Vec3) : (c • a).z = c * a.z := rfl

/-- Squared Euclidean length of a vector. -/
def normSq (v : Vec3) : ℝ := v.x ^ 2 + v.y ^ 2 + v.z ^ 2

/-- Euclidean length (magnitude) of a vector. -/
noncomputable def normV (v : Vec3) : ℝ := Real.sqrt (normSq v)

/-- Modelled from the spec: a simulated body (spec §3), holding the
authoritative physical state `mass`, `position`, `velocity`.  The source's
`BodyBundle` component data is not among the provided files. -/
structure Body where
  mass : ℝ
  pos : Vec3
  vel : Vec3

instance : Inhabited Body := ⟨⟨0, 0, 0⟩⟩

/-- Modelled from the spec: the error taxonomy of §7 (`InvalidBodyError`,
`UninitializedGravityError`). -/
inductive SimError where
  | invalidBody
  | uninitializedGravity
deriving DecidableEq

/-- Modelled from the spec: the simulation state, a gravity constant that is
`none` before `setGravityConstant` runs (spec §4.2) plus the Body Store
(spec §4.1). -/
structure SimState where
  gravity : Option ℝ
  bodies : List Body

/-- Modelled from the spec: `createBody(mass, initialPosition,
initialVelocity) -> BodyId` where `mass > 0`, failing with
`InvalidBodyError` otherwise and leaving the store untouched (spec §4.1,
§7). The fresh `BodyId` is the index of the appended body. -/
noncomputable def createBody (store : List Body) (m : ℝ) (p v : Vec3) :
    Except SimError (List Body × Nat) :=
  if m ≤ 0 then Except.error SimError.invalidBody
  else Except.ok (store ++ [⟨m, p, v⟩], store.length)

/-- Modelled from the spec: `setGravityConstant(rawG, unitScaleFactor)`
computes `G' = rawG * unitScaleFactor` and stores it (spec §4.2). -/
def setGravityConstant (rawG unitScale : ℝ) (s : SimState) : SimState :=
  { s with gravity := some (rawG * unitScale) }

/-- Modelled from the spec: `getGravityConstant() -> G'` (spec §4.2);
`none` when the constant was never initialized. -/
def getGravityConstant (s : SimState) : Option ℝ := s.gravity

/-- Modelled from the spec: one evaluation of an unordered pair (i, j) by the
Force Accumulator (spec §4.3).  With `r = pos_j - pos_i` and the softened
distance `d_soft = sqrt(|r|² + ε²)` it yields the two symmetric
contributions `(G * m_j / d_soft³) • r` for body i and
`-(G * m_i / d_soft³) • r` for body j. -/
noncomputable def accelPair (G ε : ℝ) (bi bj : Body) : Vec3 × Vec3 :=
  let r := bj.pos - bi.pos
  let dsoft := Real.sqrt (normSq r + ε ^ 2)
  ((G * bj.mass / dsoft ^ 3) • r, (-(G * bi.mass / dsoft ^ 3)) • r)

/-- Index pairs (i, j) with `i < j < n`: each unordered pair of distinct
indices appears exactly once. -/
def pairList (n : Nat) : List (Nat × Nat) :=
  ((List.range n).map fun i =>
    ((List.range n).filter fun j => i < j).map fun j => (i, j)).flatten

/-- Modelled from the spec: accumulation of the pairwise contributions into
per-body acceleration slots (spec §4.3); each listed pair is evaluated once
by `accelPair` and added into the slots of both of its bodies. -/
noncomputable def accumPairs (G ε : ℝ) (bodies : List Body) :
    List (Nat × Nat) → Nat → Vec3
  | [], _ => 0
  | (i, j) :: rest, k =>
      let c := accelPair G ε (bodies.getD i default) (bodies.getD j default)
      (if k = i then c.1 else 0) + (if k = j then c.2 else 0) +
        accumPairs G ε bodies rest k

/-- Modelled from the spec: `computeAccelerations(bodies, G)` (spec §4.3),
with the tunable softening constant ε passed explicitly.  Every unordered
pair of distinct bodies is evaluated once and accumulated symmetrically. -/
noncomputable def computeAccelerations (G ε : ℝ) (bodies : List Body) :
    Nat → Vec3 :=
  accumPairs G ε bodies (pairList bodies.length)

/-- Modelled from the spec: the effective integration step
`effectiveDt = dt * speed_factor` (spec §3, §4.4). -/
def effectiveDt (dt speedFactor : ℝ) : ℝ := dt * speedFactor

/-- Modelled from the spec: the semi-implicit Euler update of one body
(spec §4.4): first `velocity += acceleration * h`, then
`position += velocity * h` using the already-updated velocity. -/
def stepBody (h : ℝ) (a : Vec3) (b : Body) : Body :=
  let v := b.vel + h • a
  { mass := b.mass, pos := b.pos + h • v, vel := v }

/-- Helper for `step`: applies `stepBody` to each body, feeding body number
`k + i` of the acceleration mapping to the i-th body of the list. -/
noncomputable def stepFrom (h : ℝ) (accels : Nat → Vec3) :
    Nat → List Body → List Body
  | _, [] => []
  | k, b :: rest => stepBody h (accels k) b :: stepFrom h accels (k + 1) rest

/-- Modelled from the spec: `step(bodies, accelerations, effectiveDt)`
(spec §4.4): a no-op when `effectiveDt <= 0`, otherwise the semi-implicit
Euler update of every body. -/
noncomputable def step (h : ℝ) (accels : Nat → Vec3) (bodies : List Body) :
    List Body :=
  if h ≤ 0 then bodies else stepFrom h accels 0 bodies

/-- Modelled from the spec: `tick(dt, speedFactor)` (spec §4.5, §5, §7):
reads the gravity constant (failing fast with `UninitializedGravityError`
before touching any body when it was never set), then calls the Force
Accumulator once on the pre-step bodies, then the Integrator once. -/
noncomputable def tick (ε dt sf : ℝ) (s : SimState) :
    Except SimError SimState :=
  match s.gravity with
  | none => Except.error SimError.uninitializedGravity
  | some g =>
      Except.ok { s with
        bodies := step (effectiveDt dt sf)
          (computeAccelerations g ε s.bodies) s.bodies }

/-- CLI flags of `src/main.rs` (`struct Flags`): `--speed` with
default `1.0`, and the `--debug` switch. -/
structure Flags where
  speed : ℝ
  debug : Bool

/-- Parsing of the `--speed` option (`#[argh(option, default = "1.0")]` in
`src/main.rs`): the supplied value when present, `1.0` otherwise. -/
def parseSpeed (supplied : Option ℝ) : ℝ := supplied.getD 1.0

/-- Flag parsing of `src/main.rs` (`argh::from_env`), with the optional
`--speed` value and the `--debug` switch as inputs. -/
def parseFlags (speedArg : Option ℝ) (debugArg : Bool) : Flags :=
  ⟨parseSpeed speedArg, debugArg⟩

/-- The `NBody` plugin configuration as constructed in `main` of
`src/main.rs`: `NBody { speed_factor: args.speed }`. -/
structure NBody where
  speed_factor : ℝ

/-- The wiring in `main` of `src/main.rs`: the parsed `--speed` value is
handed to the simulation core as its `speed_factor`. -/
def buildNBody (args : Flags) : NBody := ⟨args.speed⟩

/-- `const DAY: f32 = 86_400.0` of `solar_system` in `src/main.rs`. -/
def DAY : ℝ := 86400

/-- `const AU_TO_UNIT_SCALE: f32 = 10.0` of `solar_system` in
`src/main.rs` (1 render unit = 0.1 AU). -/
def AU_TO_UNIT_SCALE : ℝ := 10.0

/-- The gravity unit-conversion factor applied in `solar_system` of
`src/main.rs`: `DAY * DAY * 10.0f32.powi(-6) / 1.5f32.powi(3)`. -/
noncomputable def unitScaleFactor : ℝ := DAY * DAY * (10 : ℝ) ^ (-6 : ℤ) / (1.5 : ℝ) ^ (3 : ℕ)

/-- Modelled from the spec: `BodyBundle::new(mass, position, velocity)`
(used by `src/main.rs`; the constructor itself lives in the missing
`plugins/nbody.rs`), packaging the initial physical state of one body. -/
def BodyBundle.new (m : ℝ) (p v : Vec3) : Body := ⟨m, p, v⟩

/-- The raw JPL Horizons data literals of `solar_system` in `src/main.rs`
(mass, position, velocity) for the sun and the nine planets, in source
order, before the `AU_TO_UNIT_SCALE` multiplication. -/
def jplData : List (ℝ × Vec3 × Vec3) :=
  [ (1988500.0, ⟨0.0, 0.0, 0.0⟩, ⟨0.0, 0.0, 0.0⟩),
    (0.330, ⟨3.044, 0.130, -0.017⟩, ⟨-0.016, 0.027, 0.004⟩),
    (4.868, ⟨0.539, 0.482, -0.024⟩, ⟨-0.014, 0.015, 0.001⟩),
    (5.972, ⟨-0.887, -0.470, 0.000⟩, ⟨0.008, -0.015, 0.000⟩),
    (0.642, ⟨-0.767, 1.438, 0.049⟩, ⟨-0.012, -0.005, 0.000⟩),
    (1898.187, ⟨3.638, -3.517, -0.067⟩, ⟨0.005, 0.006, -0.000⟩),
    (568.340, ⟨5.947, -8.001, -0.098⟩, ⟨0.004, 0.003, -0.000⟩),
    (86.813, ⟨15.079, 12.767, -0.148⟩, ⟨-0.003, 0.003, 0.000⟩),
    (102.413, ⟨29.516, -4.898, -0.579⟩, ⟨0.001, 0.003, -0.000⟩),
    (0.013, ⟨14.375, -31.090, -0.830⟩, ⟨0.003, 0.001, -0.001⟩) ]

/-- The bodies spawned by `solar_system` in `src/main.rs`: each
`spawn_planet!` expands to `BodyBundle::new(mass, AU_TO_UNIT_SCALE *
Vec3::new(pos), AU_TO_UNIT_SCALE * Vec3::new(vel))`, in source order
sun, mercury, venus, earth, mars, jupiter, saturn, uranus, neptune,
pluto. -/
def solarSystemBodies : List Body :=
  [ BodyBundle.new 1988500.0
      (AU_TO_UNIT_SCALE • (⟨0.0, 0.0, 0.0⟩ : Vec3))
      (AU_TO_UNIT_SCALE • (⟨0.0, 0.0, 0.0⟩ : Vec3)),
    BodyBundle.new 0.330
      (AU_TO_UNIT_SCALE • (⟨3.044, 0.130, -0.017⟩ : Vec3))
      (AU_TO_UNIT_SCALE • (⟨-0.016, 0.027, 0.004⟩ : Vec3)),
    BodyBundle.new 4.868
      (AU_TO_UNIT_SCALE • (⟨0.539, 0.482, -0.024⟩ : Vec3))
      (AU_TO_UNIT_SCALE • (⟨-0.014, 0.015, 0.001⟩ : Vec3)),
    BodyBundle.new 5.972
      (AU_TO_UNIT_SCALE • (⟨-0.887, -0.470, 0.000⟩ : Vec3))
      (AU_TO_UNIT_SCALE • (⟨0.008, -0.015, 0.000⟩ : Vec3)),
    BodyBundle.new 0.642
      (AU_TO_UNIT_SCALE • (⟨-0.767, 1.438, 0.049⟩ : Vec3))
      (AU_TO_UNIT_SCALE • (⟨-0.012, -0.005, 0.000⟩ : Vec3)),
    BodyBundle.new 1898.187
      (AU_TO_UNIT_SCALE • (⟨3.638, -3.517, -0.067⟩ : Vec3))
      (AU_TO_UNIT_SCALE • (⟨0.005, 0.006, -0.000⟩ : Vec3)),
    BodyBundle.new 568.340
      (AU_TO_UNIT_SCALE • (⟨5.947, -8.001, -0.098⟩ : Vec3))
      (AU_TO_UNIT_SCALE • (⟨0.004, 0.003, -0.000⟩ : Vec3)),
    BodyBundle.new 86.813
      (AU_TO_UNIT_SCALE • (⟨15.079, 12.767, -0.148⟩ : Vec3))
      (AU_TO_UNIT_SCALE • (⟨-0.003, 0.003, 0.000⟩ : Vec3)),
    BodyBundle.new 102.413
      (AU_TO_UNIT_SCALE • (⟨29.516, -4.898, -0.579⟩ : Vec3))
      (AU_TO_UNIT_SCALE • (⟨0.001, 0.003, -0.000⟩ : Vec3)),
    BodyBundle.new 0.013
      (AU_TO_UNIT_SCALE • (⟨14.375, -31.090, -0.830⟩ : Vec3))
      (AU_TO_UNIT_SCALE • (⟨0.003, 0.001, -0.001⟩ : Vec3)) ]

theorem stepFrom_getD (h : ℝ) (accels : Nat → Vec3) (d : Body) :
    ∀ (l : List Body) (k i : Nat),
      (stepFrom h accels k l).getD i d =
        if i < l.length then stepBody h (accels (k + i)) (l.getD i d) else d := by
  intro l
  induction l with
  | nil => intro k i; simp [stepFrom]
  | cons b rest ih =>
      intro k i
      cases i with
      | zero => simp [stepFrom]
      | succ i =>
          simp only [stepFrom, List.getD_cons_succ, List.length_cons]
          rw [ih (k + 1) i]
          have harith : k + 1 + i = k + (i + 1) := by omega
          rw [harith]
          simp [Nat.succ_lt_succ_iff]

theorem stepFrom_length (h : ℝ) (accels : Nat → Vec3) :
    ∀ (l : List Body) (k : Nat), (stepFrom h accels k l).length = l.length := by
  intro l
  induction l with
  | nil => intro k; simp [stepFrom]
  | cons b rest ih => intro k; simp [stepFrom, ih]

theorem accelPair_congr (G ε : ℝ) {bi bj bi' bj' : Body}
    (hmi : bi.mass = bi'.mass) (hpi : bi.pos = bi'.pos)
    (hmj : bj.mass = bj'.mass) (hpj : bj.pos = bj'.pos) :
    accelPair G ε bi bj = accelPair G ε bi' bj' := by
  simp only [accelPair, hmi, hpi, hmj, hpj]

theorem accumPairs_congr (G ε : ℝ) {bs bs' : List Body}
    (hmp : ∀ i, (bs.getD i default).mass = (bs'.getD i default).mass ∧
      (bs.getD i default).pos = (bs'.getD i default).pos) :
    ∀ ps : List (Nat × Nat), accumPairs G ε bs ps = accumPairs G ε bs' ps := by
  intro ps
  induction ps with
  | nil => rfl
  | cons p rest ih =>
      obtain ⟨i, j⟩ := p
      funext k
      have hc : accelPair G ε (bs.getD i default) (bs.getD j default) =
          accelPair G ε (bs'.getD i default) (bs'.getD j default) :=
        accelPair_congr G ε (hmp i).1 (hmp i).2 (hmp j).1 (hmp j).2
      simp only [accumPairs, hc, ih]

/-- C1: for every body i and every tick with a positive effective step, the
integrator is semi-implicit (symplectic) Euler: the new velocity is the old
velocity plus `effectiveDt` times the acceleration computed from the
pre-step bodies, and the new position is the old position plus
`effectiveDt` times the already-updated (new) velocity. -/
theorem tick_semi_implicit_euler (ε dt sf : ℝ) (s : SimState) (g : ℝ)
    (hg : s.gravity = some g) (hdt : 0 < effectiveDt dt sf)
    (i : Nat) (hi : i < s.bodies.length) :
    ∃ s', tick ε dt sf s = Except.ok s' ∧
      (s'.bodies.getD i default).vel =
        (s.bodies.getD i default).vel +
          effectiveDt dt sf • computeAccelerations g ε s.bodies i ∧
      (s'.bodies.getD i default).pos =
        (s.bodies.getD i default).pos +
          effectiveDt dt sf • (s'.bodies.getD i default).vel := by
  refine
    ⟨{ s with
        bodies :=
          step (effectiveDt dt sf) (computeAccelerations g ε s.bodies)
            s.bodies },
      ?_, ?_, ?_⟩
  · simp [tick, hg]
  · simp only [step, if_neg (not_le.mpr hdt)]
    rw [stepFrom_getD, if_pos hi]
    simp [stepBody]
  · simp only [step, if_neg (not_le.mpr hdt)]
    rw [stepFrom_getD, if_pos hi]
    simp [stepBody]

/-- Witness for C1 at a concrete one-body state. -/
theorem tick_semi_implicit_euler_witness :
    ∃ s', tick 1 1 1 ⟨some 1, [⟨1, 0, 0⟩]⟩ = Except.ok s' ∧
      (s'.bodies.getD 0 default).vel =
        ((⟨some 1, [⟨1, 0, 0⟩]⟩ : SimState).bodies.getD 0 default).vel +
          effectiveDt 1 1 •
            computeAccelerations 1 1
              (⟨some 1, [⟨1, 0, 0⟩]⟩ : SimState).bodies 0 ∧
      (s'.bodies.getD 0 default).pos =
        ((⟨some 1, [⟨1, 0, 0⟩]⟩ : SimState).bodies.getD 0 default).pos +
          effectiveDt 1 1 • (s'.bodies.getD 0 default).vel :=
  tick_semi_implicit_euler 1 1 1 ⟨some 1, [⟨1, 0, 0⟩]⟩ 1 rfl
    (by norm_num [effectiveDt]) 0 (by simp)

/-- C2: the per-step accelerations are a function of the single pre-step
snapshot alone: they depend only on the bodies' masses and positions (never
on velocities or on any mid-step value), and `tick` hands the integrator
exactly the accelerations computed from the pre-step body list, so no
acceleration in a step can see a position already updated in that step. -/
theorem accelerations_snapshot_consistent (G ε dt sf : ℝ) :
    (∀ bs bs' : List Body, bs.length = bs'.length →
      (∀ i, (bs.getD i default).mass = (bs'.getD i default).mass ∧
        (bs.getD i default).pos = (bs'.getD i default).pos) →
      computeAccelerations G ε bs = computeAccelerations G ε bs') ∧
    (∀ s : SimState, s.gravity = some G →
      tick ε dt sf s = Except.ok { s with
        bodies := step (effectiveDt dt sf)
          (computeAccelerations G ε s.bodies) s.bodies }) := by
  constructor
  · intro bs bs' hlen hmp
    unfold computeAccelerations
    rw [hlen]
    exact accumPairs_congr G ε hmp _
  · intro s hg
    simp [tick, hg]

/-- Witness for C2: two one-body stores that differ only in velocity get the
same accelerations, and a concrete tick consumes the snapshot
accelerations. -/
theorem accelerations_snapshot_consistent_witness :
    computeAccelerations 1 1 [⟨1, 0, 0⟩] =
      computeAccelerations 1 1 [⟨1, 0, ⟨5, 0, 0⟩⟩] ∧
    tick 1 0 1 ⟨some 1, []⟩ = Except.ok ⟨some 1,
      step (effectiveDt 0 1) (computeAccelerations 1 1 []) []⟩ :=
  ⟨(accelerations_snapshot_consistent 1 1 0 1).1 _ _ (by simp)
      (fun i => by cases i <;> simp),
    (accelerations_snapshot_consistent 1 1 0 1).2 ⟨some 1, []⟩ rfl⟩

/-- C3: the pairwise force uses the softened distance
`d_soft = sqrt(d² + ε²)` in the denominator, so at exact coincidence
(`d = 0`) the denominator equals `ε³ ≠ 0` and the acceleration contribution
has finite magnitude, bounded by `G * m / ε²`, a value determined solely by
ε, the mass and G. -/
theorem softening_bounds_coincident_accel (G ε : ℝ) (hε : 0 < ε)
    (hG : 0 ≤ G) (bi bj : Body) (hm : 0 ≤ bj.mass)
    (hpos : bi.pos = bj.pos) :
    Real.sqrt (normSq (bj.pos - bi.pos) + ε ^ 2) ^ 3 = ε ^ 3 ∧
    normV (accelPair G ε bi bj).1 ≤ G * bj.mass / ε ^ 2 := by
  have hr : bj.pos - bi.pos = 0 := by
    rw [hpos]; exact Vec3.ext' (by simp) (by simp) (by simp)
  have hns : normSq (bj.pos - bi.pos) = 0 := by simp [hr, normSq]
  have hd : Real.sqrt (normSq (bj.pos - bi.pos) + ε ^ 2) = ε := by
    rw [hns, zero_add, Real.sqrt_sq hε.le]
  refine ⟨by rw [hd], ?_⟩
  have hzero : (accelPair G ε bi bj).1 = 0 := by
    simp only [accelPair, hr]
    exact Vec3.ext' (by simp) (by simp) (by simp)
  rw [hzero]
  have hnorm : normV (0 : Vec3) = 0 := by
    simp [normV, normSq]
  rw [hnorm]
  exact div_nonneg (mul_nonneg hG hm) (pow_nonneg hε.le 2)

/-- Witness for C3 at two coincident unit-mass bodies with ε = 1, G = 1. -/
theorem softening_bounds_coincident_accel_witness :
    Real.sqrt
        (normSq ((Body.pos ⟨1, 0, 0⟩) - (Body.pos ⟨1, 0, 0⟩)) + 1 ^ 2) ^ 3 =
      1 ^ 3 ∧
    normV (accelPair 1 1 ⟨1, 0, 0⟩ ⟨1, 0, 0⟩).1 ≤
      1 * (Body.mass ⟨1, 0, 0⟩) / 1 ^ 2 :=
  softening_bounds_coincident_accel 1 1 (by norm_num) (by norm_num)
    ⟨1, 0, 0⟩ ⟨1, 0, 0⟩ (by norm_num) rfl

/-- C4: one pair evaluation of the Force Accumulator satisfies Newton's
third law exactly: `mass_i • a_i_from_j = -(mass_j • a_j_from_i)`, where
`accelPair` is the single evaluation of the unordered pair whose two
components are accumulated symmetrically into both bodies. -/
theorem pairwise_newton_third_law (G ε : ℝ) (bi bj : Body) :
    bi.mass • (accelPair G ε bi bj).1 =
      -(bj.mass • (accelPair G ε bi bj).2) := by
  refine Vec3.ext' ?_ ?_ ?_ <;> simp [accelPair] <;> ring

/-- C5 counterexample: at `dt * speed_factor = 0` but with the gravity
constant never initialized, `tick` raises `UninitializedGravityError`
instead of being an error-free no-op, so the claim does not hold for every
simulation state. -/
theorem tick_noop_counterexample :
    effectiveDt 1 0 ≤ 0 ∧
    tick 1 1 0 ⟨none, []⟩ = Except.error SimError.uninitializedGravity :=
  ⟨by norm_num [effectiveDt], rfl⟩

/-- C5 (amended): for every simulation state whose gravity constant has
been initialized, a tick with `effectiveDt = dt * speed_factor ≤ 0` returns
the state unchanged — every body's position and velocity is exactly
preserved — and raises no error; in particular `tick 0 anySpeed` and
`tick anyDt 0` are no-ops on the Body Store. -/
theorem tick_noop_nonpositive_dt (ε dt sf : ℝ) (s : SimState) (g : ℝ)
    (hg : s.gravity = some g) (h : effectiveDt dt sf ≤ 0) :
    tick ε dt sf s = Except.ok s := by
  cases s with
  | mk grav bodies =>
      simp only [SimState.gravity] at hg
      subst hg
      simp [tick, step, h]

/-- Witness for C5 at a concrete initialized one-body state with
`dt = 0`. -/
theorem tick_noop_nonpositive_dt_witness :
    tick 1 0 5 ⟨some 1, [⟨1, 0, 0⟩]⟩ =
      Except.ok ⟨some 1, [⟨1, 0, 0⟩]⟩ :=
  tick_noop_nonpositive_dt 1 0 5 ⟨some 1, [⟨1, 0, 0⟩]⟩ 1 rfl
    (by norm_num [effectiveDt])

/-- C6: `createBody` rejects every non-positive mass with
`InvalidBodyError` (no body is produced, so the store and its count are
untouched), and for every strictly positive mass it succeeds, appending
exactly one body and returning its fresh `BodyId`. -/
theorem createBody_mass_validation (store : List Body) (m : ℝ)
    (p v : Vec3) :
    (m ≤ 0 → createBody store m p v = Except.error SimError.invalidBody) ∧
    (0 < m → createBody store m p v =
      Except.ok (store ++ [Body.mk m p v], store.length) ∧
      (store ++ [Body.mk m p v]).length = store.length + 1) := by
  constructor
  · intro h
    simp [createBody, h]
  · intro h
    constructor
    · simp [createBody, not_le.mpr h]
    · simp

/-- Witness for C6: mass `-5` and mass `0` are rejected, mass `3` is
accepted with the fresh id `0` on the empty store. -/
theorem createBody_mass_validation_witness :
    createBody [] (-5) 0 0 = Except.error SimError.invalidBody ∧
    createBody [] 0 0 0 = Except.error SimError.invalidBody ∧
    createBody [] 3 0 0 = Except.ok ([⟨3, 0, 0⟩], 0) :=
  ⟨(createBody_mass_validation [] (-5) 0 0).1 (by norm_num),
    (createBody_mass_validation [] 0 0 0).1 (by norm_num),
    ((createBody_mass_validation [] 3 0 0).2 (by norm_num)).1⟩

/-- C7: a tick on a state whose gravity constant was never initialized
fails fast with `UninitializedGravityError`; the error carries no updated
state, so no body's velocity or position is mutated. -/
theorem tick_uninitialized_gravity_fails (ε dt sf : ℝ) (s : SimState)
    (h : s.gravity = none) :
    tick ε dt sf s = Except.error SimError.uninitializedGravity := by
  cases s with
  | mk grav bodies =>
      simp only [SimState.gravity] at h
      subst h
      rfl

/-- Witness for C7 at a concrete uninitialized state. -/
theorem tick_uninitialized_gravity_fails_witness :
    tick 1 2 3 ⟨none, [⟨1, 0, 0⟩]⟩ =
      Except.error SimError.uninitializedGravity :=
  tick_uninitialized_gravity_fails 1 2 3 ⟨none, [⟨1, 0, 0⟩]⟩ rfl

/-- C8: setting the gravity constant stores `G' = rawG * unitScaleFactor`
with the program's factor `DAY² * 10⁻⁶ / 1.5³`, `DAY = 86400`, so
`getGravityConstant` afterwards returns exactly the raw constant times that
factor; and no tick ever changes the stored gravity constant during the
run. -/
theorem gravity_unit_scaling (rawG : ℝ) (s : SimState) :
    getGravityConstant (setGravityConstant rawG unitScaleFactor s) =
      some (rawG * (86400 ^ 2 * (10 : ℝ) ^ (-6 : ℤ) / (1.5 : ℝ) ^ 3)) ∧
    (∀ ε dt sf s', tick ε dt sf s = Except.ok s' →
      s'.gravity = s.gravity) := by
  constructor
  · simp only [getGravityConstant, setGravityConstant, unitScaleFactor, DAY]
    ring_nf
  · intro ε dt sf s' htick
    cases hg : s.gravity with
    | none => simp [tick, hg] at htick
    | some g =>
        simp only [tick, hg] at htick
        cases htick
        simp [hg]

/-- Witness for C8: the scaled constant for `rawG = 2`, and gravity
preservation across one concrete tick. -/
theorem gravity_unit_scaling_witness :
    getGravityConstant (setGravityConstant 2 unitScaleFactor ⟨none, []⟩) =
      some (2 * (86400 ^ 2 * (10 : ℝ) ^ (-6 : ℤ) / (1.5 : ℝ) ^ 3)) ∧
    SimState.gravity ⟨some 1,
        step (effectiveDt 0 1) (computeAccelerations 1 1 []) []⟩ =
      SimState.gravity ⟨some 1, []⟩ :=
  ⟨(gravity_unit_scaling 2 ⟨none, []⟩).1,
    (gravity_unit_scaling 1 ⟨some 1, []⟩).2 1 0 1 _ rfl⟩

/-- C9: the `--speed` CLI option defaults to `1.0` when absent, the parsed
value is handed to the simulation core as its `speed_factor`, and the
effective integration step of a tick is `dt * speed_factor`. -/
theorem speed_flag_default_and_wiring :
    (∀ d : Bool, (buildNBody (parseFlags none d)).speed_factor = 1.0) ∧
    (∀ (v : ℝ) (d : Bool),
      (buildNBody (parseFlags (some v) d)).speed_factor = v) ∧
    (∀ dt sf : ℝ, effectiveDt dt sf = dt * sf) ∧
    (∀ (ε dt g : ℝ) (bodies : List Body) (fl : Flags),
      tick ε dt (buildNBody fl).speed_factor ⟨some g, bodies⟩ =
        Except.ok ⟨some g,
          step (effectiveDt dt fl.speed)
            (computeAccelerations g ε bodies) bodies⟩) :=
  ⟨fun _ => rfl, fun _ _ => rfl, fun _ _ => rfl,
    fun _ _ _ _ _ => rfl⟩

/-- C10: the startup scene spawns exactly ten bodies (the sun and nine
planets); each one's initial position and velocity passed to
`BodyBundle.new` are the raw JPL literals multiplied by the same factor
`AU_TO_UNIT_SCALE = 10`, velocities included, and every spawned mass
literal is strictly positive. -/
theorem solar_system_scene :
    AU_TO_UNIT_SCALE = 10 ∧
    solarSystemBodies = jplData.map (fun d =>
      BodyBundle.new d.1 (AU_TO_UNIT_SCALE • d.2.1)
        (AU_TO_UNIT_SCALE • d.2.2)) ∧
    solarSystemBodies.length = 10 ∧
    solarSystemBodies.Forall (fun b => 0 < b.mass) := by
  refine ⟨by norm_num [AU_TO_UNIT_SCALE], rfl, rfl, ?_⟩
  simp only [solarSystemBodies, List.Forall, BodyBundle.new]
  norm_num

end Copernicus
